import Mathlib

/-
Verification of the texture-binding component of a 2D sprite engine
(src/Phaser/components/sprite/Texture.ts), as a shallow embedding.

The embedding models the `Texture` class state, its `setTo`, `loadImage`
and `loadDynamicTexture` methods, and the `width`/`height` getters.
Collaborators reached through the owning sprite (the resource cache, the
animation subsystem, the sprite frame bounds and the physics body) are
modelled as explicit state / function records. Null references are
modelled as `Option`; a JavaScript null-dereference (reading `.width` of
`null`) is modelled as the getter returning `none`, and operations that
could dereference null return `Option`. Calls out to collaborators are
additionally recorded in an event trace so that ordering properties can
be stated.
-/

namespace PhaserSpec

/-- A cache-resident static image handle: the binding only ever reads its
dimensions. -/
structure ImageHandle where
  width : Nat
  height : Nat
  deriving DecidableEq, Repr

/-- A DynamicTexture: an off-screen buffer with dimensions and a drawable
canvas surface (modelled as an opaque id). -/
structure DynamicTexture where
  width : Nat
  height : Nat
  canvas : Nat
  deriving DecidableEq, Repr

/-- Frame-slicing metadata for spritesheets / atlases (opaque to this
component; only its identity matters). -/
structure FrameData where
  id : Nat
  deriving DecidableEq, Repr

/-- The value stored in the `texture` field: either the image handle itself
(static branch) or the dynamic texture's canvas (dynamic branch). -/
inductive TexRef where
  | image (img : ImageHandle)
  | canvas (c : Nat)
  deriving DecidableEq, Repr

/-- Modelled from the spec: the animation subsystem state visible to this
component is its optional frame data (`hasFrameData`). -/
structure Animations where
  frameData : Option FrameData
  deriving DecidableEq, Repr

/-- Modelled from the spec: `discardFrameData` — `animations.destroy()`
discards the frame data held by the animation subsystem. -/
def Animations.destroy (_a : Animations) : Animations :=
  { frameData := none }

/-- Modelled from the spec: `loadFrameData` stores the supplied frame
metadata in the animation subsystem. -/
def Animations.loadFrameData (_a : Animations) (fd : FrameData) : Animations :=
  { frameData := some fd }

/-- A mutable width/height record (the sprite's `frameBounds`, the body's
`bounds`). -/
structure Rect where
  width : Nat
  height : Nat
  deriving DecidableEq, Repr

/-- Modelled from the spec: the physics body exposes a mutable `bounds`
record. -/
structure Body where
  bounds : Rect
  deriving DecidableEq, Repr

/-- The parts of the owning sprite this component writes into. -/
structure SpriteState where
  animations : Animations
  frameBounds : Rect
  body : Body
  deriving DecidableEq, Repr

/-- Modelled from the spec: the resource cache collaborator
(`getImage`, `isSpriteSheet`, `getFrameData`). -/
structure Cache where
  getImage : String → Option ImageHandle
  isSpriteSheet : String → Bool
  getFrameData : String → FrameData

/-- The fields of the `Texture` component (Texture.ts, lines 53-118). -/
structure Texture where
  imageTexture : Option ImageHandle
  dynamicTexture : Option DynamicTexture
  loaded : Bool
  alpha : Nat
  cacheKey : String
  texture : Option TexRef
  renderRotation : Bool
  flippedX : Bool
  flippedY : Bool
  isDynamic : Bool
  deriving DecidableEq, Repr

/-- The field-initializer state of a freshly constructed `Texture` before
any load: both backend references null, `loaded` false, `isDynamic`
false. -/
def Texture.initial : Texture :=
  { imageTexture := none
    dynamicTexture := none
    loaded := false
    alpha := 1
    cacheKey := ""
    texture := none
    renderRotation := true
    flippedX := false
    flippedY := false
    isDynamic := false }

/-- `Texture.setTo` (lines 124-143): if `dynamic` is truthy, take the
dynamic branch (set `isDynamic`, `dynamicTexture`, `texture` to the
buffer's canvas); otherwise take the static branch (clear `isDynamic`, set
`imageTexture` to the argument, `texture` to it). Either way set
`loaded := true`. Note neither branch clears the other backend field. -/
def Texture.setTo (t : Texture) (image : Option ImageHandle)
    (dynamic : Option DynamicTexture) : Texture :=
  match dynamic with
  | some d =>
      { t with isDynamic := true
               dynamicTexture := some d
               texture := some (TexRef.canvas d.canvas)
               loaded := true }
  | none =>
      { t with isDynamic := false
               imageTexture := image
               texture := image.map TexRef.image
               loaded := true }

/-- The `width` getter (lines 202-212): dispatch on `isDynamic` and read
through to the live backend; `none` models the JavaScript null
dereference when the selected backend reference is null. -/
def Texture.width (t : Texture) : Option Nat :=
  if t.isDynamic then
    t.dynamicTexture.map DynamicTexture.width
  else
    t.imageTexture.map ImageHandle.width

/-- The `height` getter (lines 218-229), same dispatch as `width`. -/
def Texture.height (t : Texture) : Option Nat :=
  if t.isDynamic then
    t.dynamicTexture.map DynamicTexture.height
  else
    t.imageTexture.map ImageHandle.height

/-- Combined state of the texture component and the sprite parts it
mutates. -/
structure TexState where
  tex : Texture
  sprite : SpriteState
  deriving DecidableEq, Repr

/-- Observable collaborator calls made during a load, in order. -/
inductive TexEvent where
  | animationsDestroy
  | setToCommit
  | loadFrameData (fd : FrameData)
  | setFrameBounds (w h : Nat)
  | setBodyBounds (w h : Nat)
  deriving DecidableEq, Repr

/-- The animation-clear step shared by `loadImage` (lines 153-156, guarded
by the `clearAnimations` flag) and `loadDynamicTexture` (lines 187-190,
unconditional, i.e. flag fixed to `true`): when the guard holds and the
sprite has frame data, call `animations.destroy()`. -/
def clearAnimStep (clearAnimations : Bool) (sprite : SpriteState) :
    SpriteState × List TexEvent :=
  if clearAnimations && sprite.animations.frameData.isSome then
    ({ sprite with animations := sprite.animations.destroy },
     [TexEvent.animationsDestroy])
  else
    (sprite, [])

/-- The `updateBody` step of `loadImage` (lines 172-176): when the flag is
set, write `this.width` / `this.height` into `body.bounds`. Reading the
getters can in principle null-dereference, hence `Option`. -/
def updateBodyStep (updateBody : Bool) (tex1 : Texture) (sprite : SpriteState)
    (ev : List TexEvent) : Option (TexState × List TexEvent) :=
  if updateBody then
    match tex1.width, tex1.height with
    | some w, some h =>
        some ({ tex := tex1
                sprite := { sprite with body := { sprite.body with bounds :=
                  { sprite.body.bounds with width := w, height := h } } } },
              ev ++ [TexEvent.setBodyBounds w h])
    | _, _ => none
  else
    some ({ tex := tex1, sprite := sprite }, ev)

/-- `Texture.loadImage` (lines 151-179): optionally clear animations, then
look the key up in the cache. On a miss, do nothing further. On a hit,
commit the new static backend via `setTo`, then either forward the cache
frame data to the animation subsystem (spritesheet) or write the getters
into `frameBounds` (single frame), and finally run the `updateBody`
step. -/
def loadImage (cache : Cache) (st : TexState) (key : String)
    (clearAnimations : Bool) (updateBody : Bool) :
    Option (TexState × List TexEvent) :=
  let step := clearAnimStep clearAnimations st.sprite
  match cache.getImage key with
  | none => some ({ st with sprite := step.1 }, step.2)
  | some img =>
    let tex1 := st.tex.setTo (some img) none
    let ev1 := step.2 ++ [TexEvent.setToCommit]
    if cache.isSpriteSheet key then
      let fd := cache.getFrameData key
      updateBodyStep updateBody tex1
        { step.1 with animations := step.1.animations.loadFrameData fd }
        (ev1 ++ [TexEvent.loadFrameData fd])
    else
      match tex1.width, tex1.height with
      | some w, some h =>
          updateBodyStep updateBody tex1
            { step.1 with frameBounds :=
                { step.1.frameBounds with width := w, height := h } }
            (ev1 ++ [TexEvent.setFrameBounds w h])
      | _, _ => none

/-- `Texture.loadDynamicTexture` (lines 185-196): unconditionally clear
existing animation frame data, commit the dynamic backend via `setTo`,
then write the getters into `frameBounds`. The physics body is never
touched. -/
def loadDynamicTexture (st : TexState) (texture : DynamicTexture) :
    Option (TexState × List TexEvent) :=
  let step := clearAnimStep true st.sprite
  let tex1 := st.tex.setTo none (some texture)
  match tex1.width, tex1.height with
  | some w, some h =>
      some ({ tex := tex1
              sprite := { step.1 with frameBounds :=
                { step.1.frameBounds with width := w, height := h } } },
            step.2 ++ [TexEvent.setToCommit, TexEvent.setFrameBounds w h])
  | _, _ => none

/-- The resulting state of a `loadImage` call (its event trace dropped);
on the unreachable null-dereference outcome the input state is kept. -/
def runLoadImage (cache : Cache) (st : TexState) (key : String)
    (clearAnimations : Bool) (updateBody : Bool) : TexState :=
  match loadImage cache st key clearAnimations updateBody with
  | some (st', _) => st'
  | none => st

/-- The resulting state of a `loadDynamicTexture` call. -/
def runLoadDynamicTexture (st : TexState) (texture : DynamicTexture) : TexState :=
  match loadDynamicTexture st texture with
  | some (st', _) => st'
  | none => st

/- Concrete instances used by witnesses and counterexamples. -/

/-- A 64 by 32 static image. -/
def img64 : ImageHandle := { width := 64, height := 32 }

/-- A 128 by 128 dynamic buffer. -/
def dyn128 : DynamicTexture := { width := 128, height := 128, canvas := 7 }

/-- A cache holding a single-frame image under the key `hero` and a
4-frame spritesheet under the key `sheet`. -/
def cache1 : Cache :=
  { getImage := fun k =>
      if k = "hero" then some img64
      else if k = "sheet" then some img64
      else none
    isSpriteSheet := fun k => k = "sheet"
    getFrameData := fun _ => { id := 4 } }

/-- A sprite with no animation data and zeroed bounds. -/
def sprite0 : SpriteState :=
  { animations := { frameData := none }
    frameBounds := { width := 0, height := 0 }
    body := { bounds := { width := 0, height := 0 } } }

/-- An unbound texture on a sprite with no animation data. -/
def st0 : TexState := { tex := Texture.initial, sprite := sprite0 }

/-- An unbound texture on a sprite that already holds animation frame
data. -/
def stFD : TexState :=
  { tex := Texture.initial
    sprite := { sprite0 with animations := { frameData := some { id := 9 } } } }

/- Helper lemmas (shared; not tied to a single claim). -/

/-- Binding a static image makes the `width` getter read that image. -/
@[simp] theorem width_setTo_static (t : Texture) (img : ImageHandle) :
    (t.setTo (some img) none).width = some img.width := rfl

/-- Binding a static image makes the `height` getter read that image. -/
@[simp] theorem height_setTo_static (t : Texture) (img : ImageHandle) :
    (t.setTo (some img) none).height = some img.height := rfl

/-- Binding a dynamic buffer makes the `width` getter read that buffer. -/
@[simp] theorem width_setTo_dynamic (t : Texture) (image : Option ImageHandle)
    (d : DynamicTexture) : (t.setTo image (some d)).width = some d.width := rfl

/-- Binding a dynamic buffer makes the `height` getter read that buffer. -/
@[simp] theorem height_setTo_dynamic (t : Texture) (image : Option ImageHandle)
    (d : DynamicTexture) : (t.setTo image (some d)).height = some d.height := rfl

/-- The animation-clear step never touches the frame bounds. -/
@[simp] theorem clearAnimStep_frameBounds (ca : Bool) (s : SpriteState) :
    (clearAnimStep ca s).1.frameBounds = s.frameBounds := by
  unfold clearAnimStep; split <;> rfl

/-- The animation-clear step never touches the physics body. -/
@[simp] theorem clearAnimStep_body (ca : Bool) (s : SpriteState) :
    (clearAnimStep ca s).1.body = s.body := by
  unfold clearAnimStep; split <;> rfl

/-- The trace of the animation-clear step. -/
theorem clearAnimStep_snd (ca : Bool) (s : SpriteState) :
    (clearAnimStep ca s).2 =
      if ca && s.animations.frameData.isSome then [TexEvent.animationsDestroy]
      else [] := by
  unfold clearAnimStep; split <;> simp_all

/-- Closed form of `loadImage` on a cache miss: only the animation-clear
step runs. -/
theorem loadImage_miss_eq (cache : Cache) (st : TexState) (key : String)
    (ca ub : Bool) (hmiss : cache.getImage key = none) :
    loadImage cache st key ca ub =
      some ({ st with sprite := (clearAnimStep ca st.sprite).1 },
            (clearAnimStep ca st.sprite).2) := by
  simp [loadImage, hmiss]

/-- Closed form of `loadImage` on a cache hit: animation-clear, backend
commit, the spritesheet / single-frame branch, then the optional body
update, with the matching event trace. -/
theorem loadImage_hit_eq (cache : Cache) (st : TexState) (key : String)
    (ca ub : Bool) (img : ImageHandle) (hhit : cache.getImage key = some img) :
    loadImage cache st key ca ub =
      some
        ({ tex := st.tex.setTo (some img) none
           sprite :=
             (fun s2 =>
               if ub then
                 { s2 with body := { s2.body with bounds :=
                     { s2.body.bounds with width := img.width, height := img.height } } }
               else s2)
               (if cache.isSpriteSheet key then
                  { (clearAnimStep ca st.sprite).1 with animations :=
                      ((clearAnimStep ca st.sprite).1.animations.loadFrameData
                        (cache.getFrameData key)) }
                else
                  { (clearAnimStep ca st.sprite).1 with frameBounds :=
                      { (clearAnimStep ca st.sprite).1.frameBounds with
                          width := img.width, height := img.height } }) },
         (clearAnimStep ca st.sprite).2 ++ [TexEvent.setToCommit] ++
           (if cache.isSpriteSheet key then
              [TexEvent.loadFrameData (cache.getFrameData key)]
            else [TexEvent.setFrameBounds img.width img.height]) ++
           (if ub then [TexEvent.setBodyBounds img.width img.height] else [])) := by
  by_cases hs : cache.isSpriteSheet key <;> by_cases hb : ub <;>
    simp [loadImage, updateBodyStep, hhit, hs, hb]

/-- Closed form of `loadDynamicTexture`: animation-clear, backend commit,
frame-bounds write; the body is untouched. -/
theorem loadDynamicTexture_eq (st : TexState) (d : DynamicTexture) :
    loadDynamicTexture st d =
      some
        ({ tex := st.tex.setTo none (some d)
           sprite := { (clearAnimStep true st.sprite).1 with frameBounds :=
             { (clearAnimStep true st.sprite).1.frameBounds with
                 width := d.width, height := d.height } } },
         (clearAnimStep true st.sprite).2 ++
           [TexEvent.setToCommit, TexEvent.setFrameBounds d.width d.height]) := by
  simp [loadDynamicTexture]

/- Claim theorems. -/

/-- C1 (counterexample): the claim that after every successful `setTo`
exactly one of `imageTexture` / `dynamicTexture` is populated fails on the
code: binding a static image and then a dynamic buffer leaves BOTH
backend references populated, because neither `setTo` branch clears the
other reference. -/
theorem setTo_exclusivity_counterexample :
    ((Texture.initial.setTo (some img64) none).setTo none (some dyn128)).imageTexture
        = some img64 ∧
    ((Texture.initial.setTo (some img64) none).setTo none (some dyn128)).dynamicTexture
        = some dyn128 ∧
    ((Texture.initial.setTo (some img64) none).setTo none (some dyn128)).isDynamic
        = true := by
  decide

/-- C1 (amended): after any successful `setTo`, `loaded` is true, the
reference of the variant just bound is populated with the new handle, and
`isDynamic` is true iff the dynamic variant was bound by this call; but
the other backend reference is NOT dropped to null — it keeps its
previous value, so both references can be populated after cross-variant
rebinds. -/
theorem setTo_backend_agreement (t : Texture) (image : Option ImageHandle)
    (dynamic : Option DynamicTexture) :
    (t.setTo image dynamic).loaded = true ∧
    (t.setTo image dynamic).isDynamic = dynamic.isSome ∧
    (∀ d, dynamic = some d →
      (t.setTo image dynamic).dynamicTexture = some d ∧
      (t.setTo image dynamic).imageTexture = t.imageTexture) ∧
    (dynamic = none →
      (t.setTo image dynamic).imageTexture = image ∧
      (t.setTo image dynamic).dynamicTexture = t.dynamicTexture) := by
  cases dynamic <;> simp [Texture.setTo]

/-- Witness for C1 (amended) at a concrete rebind. -/
theorem setTo_backend_agreement_witness :
    (Texture.initial.setTo none (some dyn128)).dynamicTexture = some dyn128 ∧
    (Texture.initial.setTo none (some dyn128)).imageTexture
        = Texture.initial.imageTexture :=
  (setTo_backend_agreement Texture.initial none (some dyn128)).2.2.1 dyn128 rfl

/-- C2 (counterexample): calling `setTo` with neither argument does not
fail fast: it completes normally and leaves `loaded = true` while no
backend reference is populated. -/
theorem setTo_neither_counterexample :
    (Texture.initial.setTo none none).loaded = true ∧
    (Texture.initial.setTo none none).imageTexture = none ∧
    (Texture.initial.setTo none none).dynamicTexture = none ∧
    (Texture.initial.setTo none none).texture = none := by
  decide

/-- C2 (amended): `setTo` with neither argument performs no validation:
it takes the static branch, sets `imageTexture` and `texture` to null,
`isDynamic` to false, and completes normally with `loaded = true`; on a
texture with no previously bound dynamic backend this leaves `loaded`
true while no backend is populated. -/
theorem setTo_neither_completes (t : Texture) (hd : t.dynamicTexture = none) :
    (t.setTo none none).loaded = true ∧
    (t.setTo none none).isDynamic = false ∧
    (t.setTo none none).imageTexture = none ∧
    (t.setTo none none).texture = none ∧
    (t.setTo none none).dynamicTexture = none := by
  simp [Texture.setTo, hd]

/-- Witness for C2 (amended) on the freshly constructed texture. -/
theorem setTo_neither_completes_witness :
    (Texture.initial.setTo none none).loaded = true ∧
    (Texture.initial.setTo none none).isDynamic = false ∧
    (Texture.initial.setTo none none).imageTexture = none ∧
    (Texture.initial.setTo none none).texture = none ∧
    (Texture.initial.setTo none none).dynamicTexture = none :=
  setTo_neither_completes Texture.initial rfl

/-- C6: after binding a static image of size (64, 32) the getters return
exactly 64 and 32; after binding a dynamic buffer of size (128, 128) they
return exactly 128 and 128; and the getters dispatch purely on the
`isDynamic` tag to select which backend's geometry to read. -/
theorem width_height_read_through (t : Texture) (img : ImageHandle)
    (d : DynamicTexture) (hiw : img.width = 64) (hih : img.height = 32)
    (hdw : d.width = 128) (hdh : d.height = 128) :
    (t.setTo (some img) none).width = some 64 ∧
    (t.setTo (some img) none).height = some 32 ∧
    (t.setTo none (some d)).width = some 128 ∧
    (t.setTo none (some d)).height = some 128 ∧
    (∀ u : Texture, u.isDynamic = true →
      u.width = u.dynamicTexture.map DynamicTexture.width ∧
      u.height = u.dynamicTexture.map DynamicTexture.height) ∧
    (∀ u : Texture, u.isDynamic = false →
      u.width = u.imageTexture.map ImageHandle.width ∧
      u.height = u.imageTexture.map ImageHandle.height) := by
  refine ⟨by simp [hiw], by simp [hih], by simp [hdw], by simp [hdh], ?_, ?_⟩ <;>
    intro u hu <;> simp [Texture.width, Texture.height, hu]

/-- Witness for C6 at the concrete 64 by 32 image and 128 by 128 buffer. -/
theorem width_height_read_through_witness :
    (Texture.initial.setTo (some img64) none).width = some 64 ∧
    (Texture.initial.setTo (some img64) none).height = some 32 ∧
    (Texture.initial.setTo none (some dyn128)).width = some 128 ∧
    (Texture.initial.setTo none (some dyn128)).height = some 128 := by
  have h := width_height_read_through Texture.initial img64 dyn128 rfl rfl rfl rfl
  exact ⟨h.1, h.2.1, h.2.2.1, h.2.2.2.1⟩

/-- C9: on an unbound texture (`loaded` false, `isDynamic` false,
`imageTexture` null) the getters take the static branch and dereference
the null `imageTexture`: the result is the null-dereference outcome
`none`, not a `0` sentinel. -/
theorem width_height_unbound_null_deref (t : Texture) (hl : t.loaded = false)
    (hdyn : t.isDynamic = false) (him : t.imageTexture = none) :
    t.width = none ∧ t.height = none ∧
    t.width ≠ some 0 ∧ t.height ≠ some 0 := by
  simp [Texture.width, Texture.height, hdyn, him]

/-- Witness for C9 on the freshly constructed (never loaded) texture. -/
theorem width_height_unbound_null_deref_witness :
    Texture.initial.width = none ∧ Texture.initial.height = none ∧
    Texture.initial.width ≠ some 0 ∧ Texture.initial.height ≠ some 0 :=
  width_height_unbound_null_deref Texture.initial rfl rfl rfl

/-- C3: on a cache miss, `loadImage` raises no error (it returns a
result) and leaves `loaded`, the backend state (`imageTexture`,
`dynamicTexture`, `texture`, `isDynamic`) and the width/height dimensions
unchanged, for any values of the `clearAnimations` / `updateBody`
flags. -/
theorem loadImage_miss_noop (cache : Cache) (st : TexState) (key : String)
    (ca ub : Bool) (hmiss : cache.getImage key = none) :
    (∃ r, loadImage cache st key ca ub = some r) ∧
    (runLoadImage cache st key ca ub).tex.loaded = st.tex.loaded ∧
    (runLoadImage cache st key ca ub).tex.imageTexture = st.tex.imageTexture ∧
    (runLoadImage cache st key ca ub).tex.dynamicTexture = st.tex.dynamicTexture ∧
    (runLoadImage cache st key ca ub).tex.texture = st.tex.texture ∧
    (runLoadImage cache st key ca ub).tex.isDynamic = st.tex.isDynamic ∧
    (runLoadImage cache st key ca ub).tex.width = st.tex.width ∧
    (runLoadImage cache st key ca ub).tex.height = st.tex.height := by
  have h := loadImage_miss_eq cache st key ca ub hmiss
  refine ⟨⟨_, h⟩, ?_, ?_, ?_, ?_, ?_, ?_, ?_⟩ <;> simp [runLoadImage, h]

/-- Witness for C3: a key absent from the concrete cache. -/
theorem loadImage_miss_noop_witness :
    (∃ r, loadImage cache1 stFD "missing" true true = some r) ∧
    (runLoadImage cache1 stFD "missing" true true).tex.loaded
        = stFD.tex.loaded ∧
    (runLoadImage cache1 stFD "missing" true true).tex.imageTexture
        = stFD.tex.imageTexture ∧
    (runLoadImage cache1 stFD "missing" true true).tex.dynamicTexture
        = stFD.tex.dynamicTexture ∧
    (runLoadImage cache1 stFD "missing" true true).tex.texture
        = stFD.tex.texture ∧
    (runLoadImage cache1 stFD "missing" true true).tex.isDynamic
        = stFD.tex.isDynamic ∧
    (runLoadImage cache1 stFD "missing" true true).tex.width
        = stFD.tex.width ∧
    (runLoadImage cache1 stFD "missing" true true).tex.height
        = stFD.tex.height :=
  loadImage_miss_noop cache1 stFD "missing" true true (by decide)

/-- C4: when the sprite holds animation frame data and `clearAnimations`
is true, every execution of `loadImage` that commits a new backend emits
`animations.destroy` strictly before the `setTo` commit in its event
trace. -/
theorem loadImage_destroy_before_commit (cache : Cache) (st : TexState)
    (key : String) (ub : Bool) (st' : TexState) (tr : List TexEvent)
    (hfd : st.sprite.animations.frameData.isSome = true)
    (hrun : loadImage cache st key true ub = some (st', tr)) :
    ∀ j : Nat, tr[j]? = some TexEvent.setToCommit →
      ∃ i : Nat, i < j ∧ tr[i]? = some TexEvent.animationsDestroy := by
  have hstep : (clearAnimStep true st.sprite).2 = [TexEvent.animationsDestroy] := by
    rw [clearAnimStep_snd]; simp [hfd]
  have h0 : tr[0]? = some TexEvent.animationsDestroy := by
    cases hcg : cache.getImage key with
    | none =>
        rw [loadImage_miss_eq cache st key true ub hcg] at hrun
        obtain ⟨-, rfl⟩ := Prod.mk.injEq .. ▸ (Option.some.injEq .. ▸ hrun)
        simp [hstep]
    | some img =>
        rw [loadImage_hit_eq cache st key true ub img hcg] at hrun
        obtain ⟨-, rfl⟩ := Prod.mk.injEq .. ▸ (Option.some.injEq .. ▸ hrun)
        simp [hstep]
  intro j hj
  cases j with
  | zero => rw [h0] at hj; cases hj
  | succ j => exact ⟨0, Nat.succ_pos j, h0⟩

/-- Witness for C4 on a concrete single-frame load over existing frame
data: the commit sits at index 1 and the destroy call at index 0. -/
theorem loadImage_destroy_before_commit_witness :
    ∃ i : Nat, i < 1 ∧
      ([TexEvent.animationsDestroy, TexEvent.setToCommit,
        TexEvent.setFrameBounds 64 32, TexEvent.setBodyBounds 64 32])[i]?
        = some TexEvent.animationsDestroy :=
  loadImage_destroy_before_commit cache1 stFD "hero" true
    (runLoadImage cache1 stFD "hero" true true)
    [TexEvent.animationsDestroy, TexEvent.setToCommit,
     TexEvent.setFrameBounds 64 32, TexEvent.setBodyBounds 64 32]
    (by decide) (by decide) 1 (by decide)

/-- C5: on a cache hit, `loadImage` takes exactly one of two exclusive
branches: a spritesheet key forwards the cache frame data via
`loadFrameData` and never writes `frameBounds` directly; a single-frame
key writes `frameBounds` from the image dimensions and never calls
`loadFrameData`. -/
theorem loadImage_branch_exclusive (cache : Cache) (st : TexState)
    (key : String) (ca ub : Bool) (img : ImageHandle) (st' : TexState)
    (tr : List TexEvent) (hhit : cache.getImage key = some img)
    (hrun : loadImage cache st key ca ub = some (st', tr)) :
    (cache.isSpriteSheet key = true →
      TexEvent.loadFrameData (cache.getFrameData key) ∈ tr ∧
      st'.sprite.animations.frameData = some (cache.getFrameData key) ∧
      st'.sprite.frameBounds = st.sprite.frameBounds ∧
      ∀ w h, TexEvent.setFrameBounds w h ∉ tr) ∧
    (cache.isSpriteSheet key = false →
      TexEvent.setFrameBounds img.width img.height ∈ tr ∧
      st'.sprite.frameBounds.width = img.width ∧
      st'.sprite.frameBounds.height = img.height ∧
      ∀ fd, TexEvent.loadFrameData fd ∉ tr) := by
  rw [loadImage_hit_eq cache st key ca ub img hhit] at hrun
  obtain ⟨rfl, rfl⟩ := Prod.mk.injEq .. ▸ (Option.some.injEq .. ▸ hrun)
  constructor <;> intro hs <;> by_cases hb : ub <;>
    simp [hs, hb, clearAnimStep_snd, Animations.loadFrameData] <;>
    split <;> simp

/-- Witness for C5 on the concrete spritesheet key. -/
theorem loadImage_branch_exclusive_witness :
    TexEvent.loadFrameData (cache1.getFrameData "sheet")
        ∈ [TexEvent.setToCommit, TexEvent.loadFrameData { id := 4 },
           TexEvent.setBodyBounds 64 32] ∧
    (runLoadImage cache1 st0 "sheet" true true).sprite.animations.frameData
        = some (cache1.getFrameData "sheet") ∧
    (runLoadImage cache1 st0 "sheet" true true).sprite.frameBounds
        = st0.sprite.frameBounds ∧
    ∀ w h, TexEvent.setFrameBounds w h
        ∉ [TexEvent.setToCommit, TexEvent.loadFrameData { id := 4 },
           TexEvent.setBodyBounds 64 32] := by
  have h : loadImage cache1 st0 "sheet" true true =
      some (runLoadImage cache1 st0 "sheet" true true,
            [TexEvent.setToCommit, TexEvent.loadFrameData { id := 4 },
             TexEvent.setBodyBounds 64 32]) := by
    decide
  exact (loadImage_branch_exclusive cache1 st0 "sheet" true true img64
    (runLoadImage cache1 st0 "sheet" true true)
    [TexEvent.setToCommit, TexEvent.loadFrameData { id := 4 },
     TexEvent.setBodyBounds 64 32] (by decide) h).1 (by decide)

/-- C7: `loadDynamicTexture` always succeeds, never writes the physics
body (no `setBodyBounds` event exists and `body` is unchanged — there is
no flag that could enable it), binds the dynamic backend, and writes the
sprite frame bounds from the buffer dimensions. -/
theorem loadDynamicTexture_never_touches_body (st : TexState) (d : DynamicTexture) :
    ∃ st' tr, loadDynamicTexture st d = some (st', tr) ∧
      st'.sprite.body = st.sprite.body ∧
      (∀ w h, TexEvent.setBodyBounds w h ∉ tr) ∧
      st'.sprite.frameBounds.width = d.width ∧
      st'.sprite.frameBounds.height = d.height ∧
      st'.tex.isDynamic = true ∧
      st'.tex.dynamicTexture = some d ∧
      st'.tex.loaded = true := by
  refine ⟨_, _, loadDynamicTexture_eq st d, ?_, ?_, ?_, ?_, ?_, ?_, ?_⟩ <;>
    simp [Texture.setTo, clearAnimStep_snd] <;> split <;> simp

/-- C8: dimension propagation is idempotent: repeating the same load
operation (`loadImage` on the same single-frame key with both flags set,
or `loadDynamicTexture` on the same buffer) yields the same final frame
bounds and body bounds as running it once. -/
theorem sync_idempotent (cache : Cache) (st : TexState) (key : String)
    (img : ImageHandle) (d : DynamicTexture)
    (hhit : cache.getImage key = some img)
    (hsheet : cache.isSpriteSheet key = false) :
    ((runLoadImage cache (runLoadImage cache st key true true) key true true).sprite.frameBounds
        = (runLoadImage cache st key true true).sprite.frameBounds ∧
     (runLoadImage cache (runLoadImage cache st key true true) key true true).sprite.body.bounds
        = (runLoadImage cache st key true true).sprite.body.bounds) ∧
    ((runLoadDynamicTexture (runLoadDynamicTexture st d) d).sprite.frameBounds
        = (runLoadDynamicTexture st d).sprite.frameBounds ∧
     (runLoadDynamicTexture (runLoadDynamicTexture st d) d).sprite.body.bounds
        = (runLoadDynamicTexture st d).sprite.body.bounds) := by
  have hL : ∀ s : TexState,
      (runLoadImage cache s key true true).sprite.frameBounds
          = { width := img.width, height := img.height } ∧
      (runLoadImage cache s key true true).sprite.body.bounds
          = { width := img.width, height := img.height } := by
    intro s
    simp [runLoadImage, loadImage_hit_eq cache s key true true img hhit, hsheet]
  have hD : ∀ s : TexState,
      (runLoadDynamicTexture s d).sprite.frameBounds
          = { width := d.width, height := d.height } ∧
      (runLoadDynamicTexture s d).sprite.body = s.sprite.body := by
    intro s
    simp [runLoadDynamicTexture, loadDynamicTexture_eq s d]
  refine ⟨⟨?_, ?_⟩, ?_, ?_⟩
  · rw [(hL _).1, (hL _).1]
  · rw [(hL _).2, (hL _).2]
  · rw [(hD _).1, (hD _).1]
  · rw [(hD _).2]

/-- Witness for C8 on the concrete single-frame key and dynamic buffer. -/
theorem sync_idempotent_witness :
    ((runLoadImage cache1 (runLoadImage cache1 st0 "hero" true true) "hero" true true).sprite.frameBounds
        = (runLoadImage cache1 st0 "hero" true true).sprite.frameBounds ∧
     (runLoadImage cache1 (runLoadImage cache1 st0 "hero" true true) "hero" true true).sprite.body.bounds
        = (runLoadImage cache1 st0 "hero" true true).sprite.body.bounds) ∧
    ((runLoadDynamicTexture (runLoadDynamicTexture st0 dyn128) dyn128).sprite.frameBounds
        = (runLoadDynamicTexture st0 dyn128).sprite.frameBounds ∧
     (runLoadDynamicTexture (runLoadDynamicTexture st0 dyn128) dyn128).sprite.body.bounds
        = (runLoadDynamicTexture st0 dyn128).sprite.body.bounds) :=
  sync_idempotent cache1 st0 "hero" img64 dyn128 (by decide) (by decide)

/-- C10: on a cache miss with `clearAnimations` true, `loadImage` still
destroys existing animation frame data (the clear step runs before the
cache lookup), even though the texture fields, frame bounds and body are
left unchanged. -/
theorem loadImage_miss_still_clears (cache : Cache) (st : TexState)
    (key : String) (ub : Bool) (fd : FrameData)
    (hmiss : cache.getImage key = none)
    (hfd : st.sprite.animations.frameData = some fd) :
    ∃ st' tr, loadImage cache st key true ub = some (st', tr) ∧
      st'.sprite.animations.frameData = none ∧
      TexEvent.animationsDestroy ∈ tr ∧
      st'.tex = st.tex ∧
      st'.sprite.frameBounds = st.sprite.frameBounds ∧
      st'.sprite.body = st.sprite.body := by
  have hstep : clearAnimStep true st.sprite =
      ({ st.sprite with animations := st.sprite.animations.destroy },
       [TexEvent.animationsDestroy]) := by
    simp [clearAnimStep, hfd]
  refine ⟨_, _, loadImage_miss_eq cache st key true ub hmiss, ?_, ?_, ?_, ?_, ?_⟩ <;>
    simp [hstep, Animations.destroy]

/-- Witness for C10 on a concrete absent key over existing frame data. -/
theorem loadImage_miss_still_clears_witness :
    ∃ st' tr, loadImage cache1 stFD "missing" true true = some (st', tr) ∧
      st'.sprite.animations.frameData = none ∧
      TexEvent.animationsDestroy ∈ tr ∧
      st'.tex = stFD.tex ∧
      st'.sprite.frameBounds = stFD.sprite.frameBounds ∧
      st'.sprite.body = stFD.sprite.body :=
  loadImage_miss_still_clears cache1 stFD "missing" true { id := 9 }
    (by decide) (by decide)

end PhaserSpec
